import Mathlib

/-!
Verification of the crop/rotate edit-session logic of the simple-photo-gallery
application: the geometry mapping from on-screen crop rectangles to original
image pixels, the active/committed transform state, gesture handling, the
aspect-ratio snapping, and the save (export) flow.

Modelling conventions:
* JavaScript numbers are modelled as rationals; every arithmetic operation the
  embedded code performs (addition, subtraction, multiplication, division,
  min, max, comparison) is exact on rationals.
* Animated value transitions (reanimated withSpring) are modelled by their
  target values: the settled value is what every later read observes.
* The three edit-screen variants of the repository are embedded separately and
  suffixed P4 (the Skia-canvas variant with a movable crop rectangle), P5 (the
  crop-area overlay variant with pan/pinch) and Edit (src/app/edit.tsx).
-/

/-- A crop rectangle in original-image pixel coordinates, exactly the object
passed as the crop action to the image-manipulation primitive. -/
structure CropData where
  originX : ℚ
  originY : ℚ
  width : ℚ
  height : ℚ
  deriving DecidableEq

/-- One entry of the ordered manipulation list handed to the
image-manipulation primitive: a rotate action or a crop action. -/
inductive Manipulation where
  | rotate (degrees : ℚ)
  | crop (data : CropData)
  deriving DecidableEq

/-- A pan/zoom/rotate transform: the quadruple of shared values
(scale, translateX, translateY, rotation) kept by the edit screens, both in
its active (gesture-driven) and committed (last confirmed) instance. -/
structure Transform where
  scale : ℚ
  translateX : ℚ
  translateY : ℚ
  rotation : ℚ
  deriving DecidableEq

/-- The edit-session mode flag of the edit screens: view or crop. -/
inductive EditMode where
  | view
  | crop
  deriving DecidableEq

/-- An on-screen rectangle (x, y, width, height) in display pixels. -/
structure DisplayRect where
  x : ℚ
  y : ℚ
  width : ℚ
  height : ℚ
  deriving DecidableEq

/-! ## Variant P4 (src/unnamed/part_004): Skia canvas, movable crop rectangle -/

/-- The state of the P4 edit screen read by its save and gesture code: screen
dimensions, the original image size, the on-screen crop rectangle shared
values, and the active and committed transforms. -/
structure SessionP4 where
  screenWidth : ℚ
  screenHeight : ℚ
  imageWidth : ℚ
  imageHeight : ℚ
  cropX : ℚ
  cropY : ℚ
  cropWidth : ℚ
  cropHeight : ℚ
  active : Transform
  committed : Transform
  deriving DecidableEq

/-- The display scale computed by P4 handleSave:
min(screenWidth / image.width, (screenHeight - 300) / image.height). -/
def displayScaleP4 (s : SessionP4) : ℚ :=
  min (s.screenWidth / s.imageWidth) ((s.screenHeight - 300) / s.imageHeight)

/-- The horizontal offset computed by P4 handleSave:
(screenWidth - image.width * scale) / 2. -/
def displayOffsetXP4 (s : SessionP4) : ℚ :=
  (s.screenWidth - s.imageWidth * displayScaleP4 s) / 2

/-- The vertical offset computed by P4 handleSave:
(screenHeight - image.height * scale) / 2 (note: full screenHeight, while the
scale above divides by screenHeight - 300). -/
def displayOffsetYP4 (s : SessionP4) : ℚ :=
  (s.screenHeight - s.imageHeight * displayScaleP4 s) / 2

/-- The cropData object built by P4 handleSave: the on-screen crop rectangle
translated to the original image coordinate system. -/
def cropDataP4 (s : SessionP4) : CropData :=
  { originX := (s.cropX - displayOffsetXP4 s) / displayScaleP4 s
    originY := (s.cropY - displayOffsetYP4 s) / displayScaleP4 s
    width := s.cropWidth / displayScaleP4 s
    height := s.cropHeight / displayScaleP4 s }

/-- The ordered manipulation list built by P4 handleSave: it starts as
[crop cropData] and, when the committed rotation is nonzero, pushes the
rotate action at the end. -/
def manipulationsP4 (s : SessionP4) : List Manipulation :=
  let ms := [Manipulation.crop (cropDataP4 s)]
  if s.committed.rotation ≠ 0 then ms ++ [Manipulation.rotate s.committed.rotation] else ms

/-- The P4 resize gesture onChange body: the crop width and height shared
values are incremented by the gesture change deltas, with no clamping. -/
def resizeOnChangeP4 (cropWidth cropHeight changeX changeY : ℚ) : ℚ × ℚ :=
  (cropWidth + changeX, cropHeight + changeY)

/-- The P4 resize gesture as routed through its GestureDetector: the detector
is attached unconditionally (no enabled prop, not gated by the edit mode), so
the mode argument is not consulted. -/
def applyResizeP4 (_mode : EditMode) (cropWidth cropHeight changeX changeY : ℚ) : ℚ × ℚ :=
  resizeOnChangeP4 cropWidth cropHeight changeX changeY

/-- The guard at the top of P4 handleSave: it returns early when the image or
its measured size is missing; the isProcessing flag is not consulted. Presence
of the loaded image and of the measured size are modelled as Option values. -/
def handleSaveProceedsP4 (image : Option Unit) (originalImageSize : Option (ℚ × ℚ))
    (_isProcessing : Bool) : Bool :=
  image.isSome && originalImageSize.isSome

/-- Number of calls to the image-manipulation primitive one invocation of P4
handleSave performs: one when the guard lets it proceed, none otherwise. -/
def primitiveCallsP4 (image : Option Unit) (originalImageSize : Option (ℚ × ℚ))
    (isProcessing : Bool) : ℕ :=
  if handleSaveProceedsP4 image originalImageSize isProcessing then 1 else 0

/-- The disabled prop of the save button in the P4 header: disabled exactly
while isProcessing is true. -/
def saveButtonDisabledP4 (isProcessing : Bool) : Bool :=
  isProcessing

/-- The P4 aspect-ratio button handler: starting from the kept crop width it
derives the height from the ratio, falls back to deriving the width from the
clamped height when the height would exceed the canvas height, then to
deriving the height from the clamped width when the width would exceed the
canvas width, and centers the result in the canvas area (which sits below a
100 px header offset). -/
def handleAspectRatioPressP4 (screenWidth screenHeight r cropWidth : ℚ) : DisplayRect :=
  let canvasWidth := screenWidth
  let canvasHeight := screenHeight - 200
  let w0 := cropWidth
  let h0 := w0 / r
  let w1 := if h0 > canvasHeight then canvasHeight * r else w0
  let h1 := if h0 > canvasHeight then canvasHeight else h0
  let w2 := if w1 > canvasWidth then canvasWidth else w1
  let h2 := if w1 > canvasWidth then canvasWidth / r else h1
  { x := (screenWidth - w2) / 2
    y := (canvasHeight - h2) / 2 + 100
    width := w2
    height := h2 }

/-! ## Variant P5 (src/unnamed/part_005): crop-area overlay with pan/pinch -/

/-- The state of the P5 edit screen read by its save code: screen width (the
crop area size is screenWidth - 40), original image size, and the active and
committed transforms. -/
structure SessionP5 where
  screenWidth : ℚ
  imageWidth : ℚ
  imageHeight : ℚ
  active : Transform
  committed : Transform
  deriving DecidableEq

/-- CROP_AREA_SIZE of the P5 screen: screenWidth - 40. -/
def cropAreaSizeP5 (s : SessionP5) : ℚ :=
  s.screenWidth - 40

/-- The cropData object built by P5 handleSave from the committed transform:
display scale image.width / (CROP_AREA_SIZE * 2), crop dimensions
image dimensions divided by the committed scale, origin recentered by the
committed translation. -/
def cropDataP5 (s : SessionP5) : CropData :=
  let displayScale := s.imageWidth / (cropAreaSizeP5 s * 2)
  { originX := (s.imageWidth - s.imageWidth / s.committed.scale) / 2
      - s.committed.translateX * displayScale
    originY := (s.imageHeight - s.imageHeight / s.committed.scale) / 2
      - s.committed.translateY * displayScale
    width := s.imageWidth / s.committed.scale
    height := s.imageHeight / s.committed.scale }

/-- The ordered manipulation list built by P5 handleSave: [crop cropData],
then the rotate action pushed at the end when the committed rotation is
nonzero. -/
def manipulationsP5 (s : SessionP5) : List Manipulation :=
  let ms := [Manipulation.crop (cropDataP5 s)]
  if s.committed.rotation ≠ 0 then ms ++ [Manipulation.rotate s.committed.rotation] else ms

/-- Whether the P5 pinch handler receives events: its enabled prop is
editMode === crop. -/
def pinchEnabledP5 (mode : EditMode) : Bool :=
  match mode with
  | EditMode.crop => true
  | EditMode.view => false

/-- Whether the P5 pan handler receives events: its enabled prop is
editMode === crop. -/
def panEnabledP5 (mode : EditMode) : Bool :=
  match mode with
  | EditMode.crop => true
  | EditMode.view => false

/-- One P5 pinch onActive event applied through the enabled gate: when
enabled, the active scale becomes the start scale times the event scale,
clamped to [0.5, 3]; when the handler is disabled it receives no event and the
transform is unchanged. -/
def applyPinchP5 (mode : EditMode) (t : Transform) (startScale eventScale : ℚ) : Transform :=
  if pinchEnabledP5 mode then
    { t with scale := max (1 / 2) (min 3 (startScale * eventScale)) }
  else t

/-- One P5 pan onActive event applied through the enabled gate: when enabled,
the active translation becomes the start translation plus the gesture
translation; when disabled the transform is unchanged. -/
def applyPanP5 (mode : EditMode) (t : Transform) (startX startY dx dy : ℚ) : Transform :=
  if panEnabledP5 mode then
    { t with translateX := startX + dx, translateY := startY + dy }
  else t

/-! ## Gesture machine of the P5 pan/pinch handlers

The pan and pinch handlers keep per-gesture context (start translation, start
scale) captured at onStart and used by onActive; pinch onEnd springs the scale
back to 1 when it fell below 1. The machine state carries the active and
committed transforms together with both contexts. -/

/-- Machine state for the P5 gesture handlers: active and committed
transforms plus the pan and pinch gesture contexts. -/
structure GestureState where
  active : Transform
  committed : Transform
  panStartX : ℚ
  panStartY : ℚ
  pinchStartScale : ℚ
  deriving DecidableEq

/-- A discrete pan/pinch gesture event as delivered to the P5 handlers. -/
inductive PanPinchEvent where
  | panStart
  | panActive (translationX translationY : ℚ)
  | pinchStart
  | pinchActive (eventScale : ℚ)
  | pinchEnd
  deriving DecidableEq

/-- One step of the P5 gesture handlers: pan onStart stores the current
translation in the context; pan onActive sets the translation to context plus
event translation; pinch onStart stores the current scale; pinch onActive sets
the scale to context times event scale clamped to [0.5, 3]; pinch onEnd
springs the scale to 1 when it is below 1. Only the active transform is ever
written. -/
def gestureStepP5 (s : GestureState) : PanPinchEvent → GestureState
  | PanPinchEvent.panStart =>
      { s with panStartX := s.active.translateX, panStartY := s.active.translateY }
  | PanPinchEvent.panActive dx dy =>
      { s with active :=
          { s.active with translateX := s.panStartX + dx, translateY := s.panStartY + dy } }
  | PanPinchEvent.pinchStart =>
      { s with pinchStartScale := s.active.scale }
  | PanPinchEvent.pinchActive f =>
      { s with active :=
          { s.active with scale := max (1 / 2) (min 3 (s.pinchStartScale * f)) } }
  | PanPinchEvent.pinchEnd =>
      if s.active.scale < 1 then { s with active := { s.active with scale := 1 } } else s

/-- Run a finite sequence of pan/pinch events through the P5 handlers. -/
def runGestures (s : GestureState) (evs : List PanPinchEvent) : GestureState :=
  evs.foldl gestureStepP5 s

/-- The reset action (handleReset of P4, identically handleCancelCrop of P5):
every active transform component is set to its committed counterpart. -/
def resetToCommitted (s : GestureState) : GestureState :=
  { s with active := s.committed }

/-! ## Save flow and gallery list -/

/-- prependAsset of the MediaContext provider: the new asset is placed in
front of the previous assets list. -/
def prependAsset {α : Type} (a : α) (assets : List α) : List α :=
  a :: assets

/-- The observable outcome of one run of handleSave: how many error alerts
were shown, whether prependAsset was called, the final isProcessing flag, the
final edit mode, and whether the screen navigated back. -/
structure SaveOutcome where
  errorAlerts : ℕ
  prependCalled : Bool
  isProcessing : Bool
  mode : EditMode
  navigatedBack : Bool
  deriving DecidableEq

/-- The two awaited calls inside the try block of P4 handleSave, sequenced:
first the image-manipulation primitive, then the persistence collaborator on
the produced resource. Either may reject, which is modelled by Except. Image
resources and persisted assets are identified by numeric handles. -/
def saveAwaitsP4 (manipResult : Except Unit ℕ) (persistResult : ℕ → Except Unit ℕ) :
    Except Unit ℕ :=
  match manipResult with
  | Except.ok uri => persistResult uri
  | Except.error e => Except.error e

/-- One run of the try/catch/finally of P4 handleSave, given the outcomes of
the two awaited external calls: on success prependAsset runs on the gallery
and the screen navigates back with no alert; on a rejection of either call the
single catch block shows one error alert, prependAsset is not reached and the
gallery is unchanged; the finally block resets isProcessing to false on every
path; no path touches the edit mode. -/
def handleSaveRunP4 (mode : EditMode) (gallery : List ℕ)
    (manipResult : Except Unit ℕ) (persistResult : ℕ → Except Unit ℕ) :
    SaveOutcome × List ℕ :=
  match saveAwaitsP4 manipResult persistResult with
  | Except.ok asset =>
      ({ errorAlerts := 0, prependCalled := true, isProcessing := false,
         mode := mode, navigatedBack := true },
       prependAsset asset gallery)
  | Except.error _ =>
      ({ errorAlerts := 1, prependCalled := false, isProcessing := false,
         mode := mode, navigatedBack := false },
       gallery)

/-! ## Variant Edit (src/app/edit.tsx): fixed crop area, filters -/

/-- The cropData object built by handleSave of src/app/edit.tsx from the live
shared values: image size is CROP_AREA_SIZE * 2, origins are clamped at 0 and
dimensions at the image size. -/
def cropDataEdit (screenWidth scl tx ty : ℚ) : CropData :=
  let cropAreaSize := screenWidth - 40
  let imageSize := cropAreaSize * 2
  { originX := max 0 ((imageSize - cropAreaSize) / 2 - tx / scl)
    originY := max 0 ((imageSize - cropAreaSize) / 2 - ty / scl)
    width := min imageSize (cropAreaSize / scl)
    height := min imageSize (cropAreaSize / scl) }

/-- The ordered manipulation list built by handleSave of src/app/edit.tsx:
the rotate action is pushed first (when the rotation is nonzero), then the
crop action. -/
def manipulationsEdit (screenWidth rot scl tx ty : ℚ) : List Manipulation :=
  (if rot ≠ 0 then [Manipulation.rotate rot] else []) ++
    [Manipulation.crop (cropDataEdit screenWidth scl tx ty)]

/-! ## Spec-side definitions for the refinement comparison of the geometry -/

/-- DisplayMapping scale as the spec words it: under the contain fit policy,
scale = min(viewport.width / image.width, viewport.height / image.height). -/
def specContainScale (vw vh iw ih : ℚ) : ℚ :=
  min (vw / iw) (vh / ih)

/-- DisplayMapping offsetX as the spec words it:
(viewport.width - image.width * scale) / 2. -/
def specContainOffsetX (vw vh iw ih : ℚ) : ℚ :=
  (vw - iw * specContainScale vw vh iw ih) / 2

/-- DisplayMapping offsetY as the spec words it:
(viewport.height - image.height * scale) / 2. -/
def specContainOffsetY (vw vh iw ih : ℚ) : ℚ :=
  (vh - ih * specContainScale vw vh iw ih) / 2

/-- toImageSpace as the spec words it, specialized to the identity transform
(scale 1, translation 0, rotation 0), in which case undoing the user transform
is the identity and the spec clamping step is vacuous on in-bounds inputs:
the contain offset and scale are undone componentwise. -/
def specToImageSpaceId (vw vh iw ih : ℚ) (r : DisplayRect) : CropData :=
  let s := specContainScale vw vh iw ih
  { originX := (r.x - specContainOffsetX vw vh iw ih) / s
    originY := (r.y - specContainOffsetY vw vh iw ih) / s
    width := r.width / s
    height := r.height / s }

/-! ## Theorems -/

/-- Helper: no pan or pinch handler event ever writes the committed
transform; running any event sequence leaves it unchanged. -/
theorem runGestures_committed (evs : List PanPinchEvent) :
    ∀ s : GestureState, (runGestures s evs).committed = s.committed := by
  induction evs with
  | nil => intro s; rfl
  | cons e evs ih =>
      intro s
      have hstep : runGestures s (e :: evs) = runGestures (gestureStepP5 s e) evs := rfl
      rw [hstep, ih]
      cases e <;> simp only [gestureStepP5]
      split <;> rfl

/-- Claim C1: the spec example scenario. For image 1000 x 2000 under contain
fit in a 400 x 800 viewport the spec DisplayMapping has scale 2/5 and offsets
0, and mapping the display crop rectangle (50, 100, 300, 300) under the
identity transform gives the image rectangle (125, 250, 750, 750); the P4
handleSave code, evaluated at a 400 x 800 screen (where the canvas really
displays the image with that contain mapping), instead computes display scale
1/4 and the rectangle (-100, -200, 1200, 1200), and even at a 400 x 1100
screen (image area of height 800) it computes (125, -125, 750, 750): in no
reading does it return the claimed rectangle. -/
theorem c1_example_scenario_mapping :
    specContainScale 400 800 1000 2000 = 2 / 5
  ∧ specContainOffsetX 400 800 1000 2000 = 0
  ∧ specContainOffsetY 400 800 1000 2000 = 0
  ∧ specToImageSpaceId 400 800 1000 2000 ⟨50, 100, 300, 300⟩ = ⟨125, 250, 750, 750⟩
  ∧ cropDataP4 ⟨400, 800, 1000, 2000, 50, 100, 300, 300, ⟨1, 0, 0, 0⟩, ⟨1, 0, 0, 0⟩⟩
      = ⟨-100, -200, 1200, 1200⟩
  ∧ displayScaleP4 ⟨400, 800, 1000, 2000, 50, 100, 300, 300, ⟨1, 0, 0, 0⟩, ⟨1, 0, 0, 0⟩⟩ = 1 / 4
  ∧ cropDataP4 ⟨400, 800, 1000, 2000, 50, 100, 300, 300, ⟨1, 0, 0, 0⟩, ⟨1, 0, 0, 0⟩⟩
      ≠ ⟨125, 250, 750, 750⟩
  ∧ cropDataP4 ⟨400, 1100, 1000, 2000, 50, 100, 300, 300, ⟨1, 0, 0, 0⟩, ⟨1, 0, 0, 0⟩⟩
      = ⟨125, -125, 750, 750⟩
  ∧ cropDataP4 ⟨400, 1100, 1000, 2000, 50, 100, 300, 300, ⟨1, 0, 0, 0⟩, ⟨1, 0, 0, 0⟩⟩
      ≠ ⟨125, 250, 750, 750⟩ := by
  refine ⟨?_, ?_, ?_, ?_, ?_, ?_, ?_, ?_, ?_⟩ <;>
    norm_num [specContainScale, specContainOffsetX, specContainOffsetY, specToImageSpaceId,
      cropDataP4, displayScaleP4, displayOffsetXP4, displayOffsetYP4, min_def]

/-- Claim C2: with committed rotation 90 and a nonzero crop rectangle, the P4
and P5 save flows build the list [crop, rotate] — the rotate action is pushed
after the crop action, not strictly before it — while the handleSave of
src/app/edit.tsx builds [rotate, crop] with the rotate action first. -/
theorem c2_rotate_pushed_after_crop :
    manipulationsP4 ⟨400, 1100, 1000, 2000, 50, 100, 300, 300, ⟨1, 0, 0, 90⟩, ⟨1, 0, 0, 90⟩⟩
      = [Manipulation.crop ⟨125, -125, 750, 750⟩, Manipulation.rotate 90]
  ∧ manipulationsP5 ⟨400, 1000, 2000, ⟨1, 0, 0, 90⟩, ⟨1, 0, 0, 90⟩⟩
      = [Manipulation.crop ⟨0, 0, 1000, 2000⟩, Manipulation.rotate 90]
  ∧ manipulationsEdit 400 90 1 0 0
      = [Manipulation.rotate 90, Manipulation.crop ⟨180, 180, 360, 360⟩] := by
  refine ⟨?_, ?_, ?_⟩
  · norm_num [manipulationsP4, cropDataP4, displayScaleP4, displayOffsetXP4, displayOffsetYP4,
      min_def]
  · norm_num [manipulationsP5, cropDataP5, cropAreaSizeP5]
  · norm_num [manipulationsEdit, cropDataEdit, min_def, max_def]

/-- Claim C3: two session states that agree on the committed transform, the
crop rectangle and the image and screen geometry, but differ arbitrarily in
the active transform, produce identical manipulation lists at save time, in
both the P4 and the P5 variant: the export never reads the active
transform. -/
theorem c3_export_uses_committed_only :
    (∀ s₁ s₂ : SessionP4,
        s₁.committed = s₂.committed → s₁.screenWidth = s₂.screenWidth →
        s₁.screenHeight = s₂.screenHeight → s₁.imageWidth = s₂.imageWidth →
        s₁.imageHeight = s₂.imageHeight → s₁.cropX = s₂.cropX → s₁.cropY = s₂.cropY →
        s₁.cropWidth = s₂.cropWidth → s₁.cropHeight = s₂.cropHeight →
        manipulationsP4 s₁ = manipulationsP4 s₂)
  ∧ (∀ s₁ s₂ : SessionP5,
        s₁.committed = s₂.committed → s₁.screenWidth = s₂.screenWidth →
        s₁.imageWidth = s₂.imageWidth → s₁.imageHeight = s₂.imageHeight →
        manipulationsP5 s₁ = manipulationsP5 s₂) := by
  constructor
  · intro s₁ s₂ hc h1 h2 h3 h4 h5 h6 h7 h8
    cases s₁
    cases s₂
    simp only at hc h1 h2 h3 h4 h5 h6 h7 h8
    subst hc h1 h2 h3 h4 h5 h6 h7 h8
    rfl
  · intro s₁ s₂ hc h1 h2 h3
    cases s₁
    cases s₂
    simp only at hc h1 h2 h3
    subst hc h1 h2 h3
    rfl

/-- Witness for claim C3: two P4 states and two P5 states with wildly
different active transforms but equal committed transforms, crop rectangles
and geometry yield equal manipulation lists. -/
theorem c3_witness :
    manipulationsP4 ⟨400, 1100, 1000, 2000, 50, 100, 300, 300, ⟨2, 7, -3, 180⟩, ⟨1, 0, 0, 90⟩⟩
      = manipulationsP4 ⟨400, 1100, 1000, 2000, 50, 100, 300, 300, ⟨1, 0, 0, 0⟩, ⟨1, 0, 0, 90⟩⟩
  ∧ manipulationsP5 ⟨400, 1000, 2000, ⟨3, 5, 5, 270⟩, ⟨2, 10, -10, 90⟩⟩
      = manipulationsP5 ⟨400, 1000, 2000, ⟨1, 0, 0, 0⟩, ⟨2, 10, -10, 90⟩⟩ :=
  ⟨c3_export_uses_committed_only.1 _ _ rfl rfl rfl rfl rfl rfl rfl rfl rfl,
   c3_export_uses_committed_only.2 _ _ rfl rfl rfl rfl⟩

/-- Counterexample to claim C4: with a save already in flight (isProcessing
true) and the image loaded, a direct second invocation of P4 handleSave
passes its guard and initiates another call to the manipulation primitive, so
two rapid invocations produce two primitive calls, not one. -/
theorem c4_counterexample :
    handleSaveProceedsP4 (some ()) (some (1000, 2000)) true = true
  ∧ primitiveCallsP4 (some ()) (some (1000, 2000)) false
      + primitiveCallsP4 (some ()) (some (1000, 2000)) true = 2 :=
  ⟨rfl, rfl⟩

/-- Claim C4 as amended: the guard of P4 handleSave does not consult the
isProcessing flag at all — its outcome is the same for any two values of the
flag — and single-flight is enforced only by the save button being disabled
exactly while isProcessing is true. -/
theorem c4_guard_is_ui_only :
    ∀ (image : Option Unit) (originalImageSize : Option (ℚ × ℚ)) (p q : Bool),
      handleSaveProceedsP4 image originalImageSize p
        = handleSaveProceedsP4 image originalImageSize q
      ∧ saveButtonDisabledP4 p = p :=
  fun _ _ _ _ => ⟨rfl, rfl⟩

/-- Counterexample to claim C5: a resize delta of -400 applied to a 300 x 300
crop rectangle yields width -100, violating the claimed minimum size of
20 px (and viewport containment). -/
theorem c5_counterexample :
    resizeOnChangeP4 300 300 (-400) 0 = (-100, 300)
  ∧ ¬ (20 ≤ (resizeOnChangeP4 300 300 (-400) 0).1) := by
  constructor
  · norm_num [resizeOnChangeP4, Prod.ext_iff]
  · norm_num [resizeOnChangeP4]

/-- Claim C5 as amended: the resize gesture handler adds the gesture deltas
directly to the crop width and height with no clamping whatsoever; in
particular, for every candidate minimum size m there is a delta that drives
the width below m. -/
theorem c5_resize_is_unclamped :
    ∀ w h dx dy m : ℚ,
      resizeOnChangeP4 w h dx dy = (w + dx, h + dy)
      ∧ (resizeOnChangeP4 w h (m - w - 1) dy).1 < m := by
  intro w h dx dy m
  refine ⟨rfl, ?_⟩
  simp only [resizeOnChangeP4]
  linarith

/-- Counterexample to claim C6: a crop-resize gesture event delivered in view
mode in the P4 variant is not a no-op — it changes the crop rectangle from
(300, 300) to (310, 300), because the P4 gesture detector is attached without
any mode gate. -/
theorem c6_counterexample :
    applyResizeP4 EditMode.view 300 300 10 0 = (310, 300)
  ∧ applyResizeP4 EditMode.view 300 300 10 0 ≠ ((300 : ℚ), (300 : ℚ)) := by
  constructor
  · norm_num [applyResizeP4, resizeOnChangeP4, Prod.ext_iff]
  · norm_num [applyResizeP4, resizeOnChangeP4, Prod.ext_iff]

/-- Claim C6 as amended: the P5 pan and pinch handlers are no-ops in view
mode (their enabled prop gates them on crop mode), but the P4 crop-resize
gesture applies its delta in every mode, view included. -/
theorem c6_gesture_gating :
    (∀ (t : Transform) (a b c d : ℚ), applyPanP5 EditMode.view t a b c d = t)
  ∧ (∀ (t : Transform) (a b : ℚ), applyPinchP5 EditMode.view t a b = t)
  ∧ (∀ (m : EditMode) (w h dx dy : ℚ), applyResizeP4 m w h dx dy = (w + dx, h + dy)) :=
  ⟨fun _ _ _ _ _ => rfl, fun _ _ _ => rfl, fun _ _ _ _ _ => rfl⟩

/-- Claim C7: after any finite sequence of pan/pinch gesture events, the
reset action restores the active transform to exactly the committed transform
that held before the sequence, and no pan/pinch event ever modifies the
committed transform. -/
theorem c7_reset_restores_committed :
    ∀ (s : GestureState) (evs : List PanPinchEvent),
      (resetToCommitted (runGestures s evs)).active = s.committed
      ∧ (runGestures s evs).committed = s.committed := by
  intro s evs
  have h := runGestures_committed evs s
  exact ⟨h, h⟩

/-- Claim C8: when the manipulation primitive or the persistence collaborator
rejects during save, the failure is caught and surfaced as exactly one error
alert, prependAsset is not called, the gallery list is unchanged, isProcessing
ends false, and the edit mode is untouched (a save started in view mode stays
in view mode). -/
theorem c8_export_failure_contained :
    ∀ (mode : EditMode) (gallery : List ℕ)
      (manipResult : Except Unit ℕ) (persistResult : ℕ → Except Unit ℕ),
      (manipResult = Except.error ()
        ∨ ∃ u, manipResult = Except.ok u ∧ persistResult u = Except.error ()) →
      (handleSaveRunP4 mode gallery manipResult persistResult).1.errorAlerts = 1
      ∧ (handleSaveRunP4 mode gallery manipResult persistResult).1.prependCalled = false
      ∧ (handleSaveRunP4 mode gallery manipResult persistResult).1.isProcessing = false
      ∧ (handleSaveRunP4 mode gallery manipResult persistResult).1.mode = mode
      ∧ (handleSaveRunP4 mode gallery manipResult persistResult).2 = gallery := by
  intro mode gallery manipResult persistResult h
  rcases h with h | ⟨u, hu, hpu⟩
  · subst h
    simp [handleSaveRunP4, saveAwaitsP4]
  · subst hu
    simp [handleSaveRunP4, saveAwaitsP4, hpu]

/-- Witness for claim C8: a save in view mode whose manipulation call rejects
shows one error alert, calls no prepend, resets isProcessing, stays in view
mode and leaves the gallery [5] unchanged. -/
theorem c8_witness :
    (handleSaveRunP4 EditMode.view [5] (Except.error ()) (fun _ => Except.ok 9)).1.errorAlerts = 1
  ∧ (handleSaveRunP4 EditMode.view [5] (Except.error ()) (fun _ => Except.ok 9)).1.prependCalled
      = false
  ∧ (handleSaveRunP4 EditMode.view [5] (Except.error ()) (fun _ => Except.ok 9)).1.isProcessing
      = false
  ∧ (handleSaveRunP4 EditMode.view [5] (Except.error ()) (fun _ => Except.ok 9)).1.mode
      = EditMode.view
  ∧ (handleSaveRunP4 EditMode.view [5] (Except.error ()) (fun _ => Except.ok 9)).2 = [5] :=
  c8_export_failure_contained EditMode.view [5] (Except.error ()) (fun _ => Except.ok 9)
    (Or.inl rfl)

/-- Claim C9: applying aspect ratio 1/1 on a 360 x 600 canvas (screen
360 x 800, canvas height = screen height - 200) with initial crop width 320
produces the square target rectangle (20, 240, 320, 320), which is centered
(20 = (360 - 320) / 2 horizontally, 240 = (600 - 320) / 2 + 100 within the
canvas area below the 100 px header); and for every ratio the target
rectangle never exceeds the canvas: width at most the canvas width, height at
most the canvas height, with the ratio preserved exactly by the two
overflow-fallback branches. -/
theorem c9_aspect_snap :
    handleAspectRatioPressP4 360 800 1 320 = ⟨20, 240, 320, 320⟩
  ∧ (20 : ℚ) = (360 - 320) / 2
  ∧ (240 : ℚ) = (600 - 320) / 2 + 100
  ∧ ∀ sw sh r cw : ℚ, 0 < r → 0 < sw → 200 < sh → 0 ≤ cw →
      (handleAspectRatioPressP4 sw sh r cw).width ≤ sw
      ∧ (handleAspectRatioPressP4 sw sh r cw).height ≤ sh - 200
      ∧ (handleAspectRatioPressP4 sw sh r cw).width
          = (handleAspectRatioPressP4 sw sh r cw).height * r := by
  refine ⟨by norm_num [handleAspectRatioPressP4], by norm_num, by norm_num, ?_⟩
  intro sw sh r cw hr hsw hsh hcw
  have hrne : r ≠ 0 := ne_of_gt hr
  simp only [handleAspectRatioPressP4]
  split_ifs with h1 h2 h3
  · refine ⟨le_refl _, ?_, (div_mul_cancel₀ _ hrne).symm⟩
    rw [div_le_iff₀ hr]
    linarith
  · exact ⟨not_lt.mp h2, le_refl _, rfl⟩
  · refine ⟨le_refl _, ?_, (div_mul_cancel₀ _ hrne).symm⟩
    have h4 : cw / r ≤ sh - 200 := not_lt.mp h1
    have h5 : sw / r ≤ cw / r := (div_le_div_iff_of_pos_right hr).mpr h3.le
    linarith
  · exact ⟨not_lt.mp h3, not_lt.mp h1, (div_mul_cancel₀ _ hrne).symm⟩

/-- Witness for claim C9: the canvas bounds of the general part evaluated at
ratio 9/16 on the 360 x 800 screen with initial crop width 320. -/
theorem c9_witness :
    (handleAspectRatioPressP4 360 800 (9 / 16) 320).width ≤ 360
  ∧ (handleAspectRatioPressP4 360 800 (9 / 16) 320).height ≤ 800 - 200
  ∧ (handleAspectRatioPressP4 360 800 (9 / 16) 320).width
      = (handleAspectRatioPressP4 360 800 (9 / 16) 320).height * (9 / 16) :=
  c9_aspect_snap.2.2.2 360 800 (9 / 16) 320 (by norm_num) (by norm_num) (by norm_num)
    (by norm_num)

/-- Claim C10: prependAsset places the new asset at index 0, shifts every
previous asset one index up preserving relative order, and drops nothing; and
a successful save run prepends exactly the persisted asset to the gallery. -/
theorem c10_prepend_front :
    ∀ (a : ℕ) (l : List ℕ),
      (prependAsset a l).get? 0 = some a
      ∧ (∀ i : ℕ, (prependAsset a l).get? (i + 1) = l.get? i)
      ∧ (prependAsset a l).length = l.length + 1
      ∧ ∀ (mode : EditMode) (g : List ℕ) (u asset : ℕ)
          (persistResult : ℕ → Except Unit ℕ),
          persistResult u = Except.ok asset →
          (handleSaveRunP4 mode g (Except.ok u) persistResult).2 = prependAsset asset g := by
  intro a l
  refine ⟨rfl, fun i => rfl, rfl, ?_⟩
  intro mode g u asset persistResult hp
  simp [handleSaveRunP4, saveAwaitsP4, hp, prependAsset]

/-- Witness for claim C10: a successful save whose persistence call returns
asset 8 turns the gallery [3, 4] into prependAsset 8 [3, 4]. -/
theorem c10_witness :
    (handleSaveRunP4 EditMode.view [3, 4] (Except.ok 7) (fun _ => Except.ok 8)).2
      = prependAsset 8 [3, 4] :=
  (c10_prepend_front 0 []).2.2.2 EditMode.view [3, 4] 7 8 (fun _ => Except.ok 8) rfl
